import Mathlib

/-!
Verification of the intercom-manager control plane.

This file gives a shallow embedding of the parts of the code base that the
claims C1-C10 are about, and proves or refutes each claim:

* `sortParticipants` and its comparator, from `src/api_productions.ts`
  (participant ordering of the line / long-poll endpoints);
* the `MediaBridgeInstance` health state machine and `MediaBridgePool`
  construction / selection, from `src/media_bridge_pool.ts`;
* the HTTP handlers of `src/api_productions.ts` (`POST /session`,
  `PATCH /session/:sessionId`, `DELETE /production/:pid/line/:lid`,
  the long-poll participants endpoint, `GET /heartbeat/:sessionId`).

Asynchronous calls into collaborators (bridge protocol client, production
manager, document store) are embedded by passing their outcomes as explicit
`Except` / `Option` arguments to the handler functions; a thrown exception is
an `Except.error` and the `try`/`catch` blocks of the handlers become the
corresponding match arms ending in the 500 branch.
-/

namespace Intercom

/-! ## Participants and their ordering (`sortParticipants`)

`api_productions.ts` keeps the participant list order stable by sorting with
a comparator: lower-cased names compared with `localeCompare` (sensitivity
`base`), ties broken by `sessionId`.  Strings are modelled by their lists of
character codes and `localeCompare` by code-point comparison of the
lower-cased strings (faithful for ASCII data).  `Array.prototype.sort` is
specified by ECMAScript to be a stable sort ordered by the comparator; it is
modelled by a stable insertion sort. -/

/-- The shape of one entry of the participant lists returned by the API
(`UserResponse` in `src/models.ts`): session id, display name, activity
flags and optional endpoint id. -/
structure UserResponse where
  sessionId : String
  name : String
  isActive : Bool
  isWhip : Bool
  endpointId : Option String
deriving DecidableEq, Repr

/-- Code points of a string (model of its sequence of character codes). -/
def codeUnits (s : String) : List Nat := s.data.map Char.toNat

/-- Code points of the lower-cased string: model of
`name.toLocaleLowerCase()` as used by the comparator. -/
def lowerCodeUnits (s : String) : List Nat :=
  s.data.map (fun c => (Char.toLower c).toNat)

/-- Lexicographic three-way comparison of code-point lists: model of
`localeCompare` restricted to code-point collation. -/
def listNatCmp : List Nat → List Nat → Ordering
  | [], [] => .eq
  | [], _ :: _ => .lt
  | _ :: _, [] => .gt
  | a :: as, b :: bs =>
    if a < b then .lt else if b < a then .gt else listNatCmp as bs

/-- The comparator of `sortParticipants` (`api_productions.ts:57-68`):
compare the lower-cased names first, and on a tie compare the session ids.
(When both names are empty the code skips the name comparison, which is the
same as the name comparison returning a tie.) -/
def participantCompare (a b : UserResponse) : Ordering :=
  match listNatCmp (lowerCodeUnits a.name) (lowerCodeUnits b.name) with
  | .eq => listNatCmp (codeUnits a.sessionId) (codeUnits b.sessionId)
  | o => o

/-- `a` sorts no later than `b`: the comparator does not return a positive
value. -/
def participantLE (a b : UserResponse) : Bool := participantCompare a b ≠ .gt

/-- Stable insertion of one participant into an already sorted list. -/
def insertParticipant (x : UserResponse) : List UserResponse → List UserResponse
  | [] => [x]
  | y :: ys =>
    if participantLE x y then x :: y :: ys else y :: insertParticipant x ys

/-- `sortParticipants` (`api_productions.ts:56-68`): a stable sort of a copy
of the participant list by `participantCompare`. -/
def sortParticipants : List UserResponse → List UserResponse
  | [] => []
  | x :: xs => insertParticipant x (sortParticipants xs)

theorem listNatCmp_eq_iff : ∀ a b : List Nat, listNatCmp a b = .eq ↔ a = b := by
  intro a
  induction a with
  | nil =>
    intro b
    cases b <;> simp [listNatCmp]
  | cons x xs ih =>
    intro b
    cases b with
    | nil => simp [listNatCmp]
    | cons y ys =>
      simp only [listNatCmp, List.cons.injEq]
      split_ifs with h1 h2
      · constructor
        · intro h; simp at h
        · rintro ⟨hx, -⟩; omega
      · constructor
        · intro h; simp at h
        · rintro ⟨hx, -⟩; omega
      · have hxy : x = y := by omega
        subst hxy
        simp [ih ys]

theorem listNatCmp_swap : ∀ a b : List Nat, listNatCmp b a = (listNatCmp a b).swap := by
  intro a
  induction a with
  | nil =>
    intro b
    cases b <;> simp [listNatCmp, Ordering.swap]
  | cons x xs ih =>
    intro b
    cases b with
    | nil => simp [listNatCmp, Ordering.swap]
    | cons y ys =>
      simp only [listNatCmp]
      split_ifs <;>
        first
          | rfl
          | omega
          | exact ih ys

theorem listNatCmp_lt_trans :
    ∀ a b c : List Nat, listNatCmp a b = .lt → listNatCmp b c = .lt →
      listNatCmp a c = .lt := by
  intro a
  induction a with
  | nil =>
    intro b c h1 h2
    cases c with
    | nil =>
      cases b with
      | nil => simp [listNatCmp] at h1
      | cons y ys => simp [listNatCmp] at h2
    | cons z zs => simp [listNatCmp]
  | cons x xs ih =>
    intro b c h1 h2
    cases b with
    | nil => simp [listNatCmp] at h1
    | cons y ys =>
      cases c with
      | nil => simp [listNatCmp] at h2
      | cons z zs =>
        simp only [listNatCmp] at h1 h2 ⊢
        split_ifs at h1 h2 ⊢ <;> first
          | rfl
          | omega
          | (exact ih ys zs h1 h2)

theorem listNatCmp_ne_gt_iff (a b : List Nat) :
    listNatCmp a b ≠ .gt ↔ listNatCmp a b = .lt ∨ listNatCmp a b = .eq := by
  cases h : listNatCmp a b <;> simp

theorem listNatCmp_le_trans {a b c : List Nat} (h1 : listNatCmp a b ≠ .gt)
    (h2 : listNatCmp b c ≠ .gt) : listNatCmp a c ≠ .gt := by
  rw [listNatCmp_ne_gt_iff] at h1 h2 ⊢
  rcases h1 with h1 | h1
  · rcases h2 with h2 | h2
    · exact Or.inl (listNatCmp_lt_trans a b c h1 h2)
    · rw [listNatCmp_eq_iff] at h2
      subst h2
      exact Or.inl h1
  · rw [listNatCmp_eq_iff] at h1
    subst h1
    exact h2

theorem participantCompare_swap (a b : UserResponse) :
    participantCompare b a = (participantCompare a b).swap := by
  unfold participantCompare
  rw [listNatCmp_swap (lowerCodeUnits a.name) (lowerCodeUnits b.name),
    listNatCmp_swap (codeUnits a.sessionId) (codeUnits b.sessionId)]
  cases listNatCmp (lowerCodeUnits a.name) (lowerCodeUnits b.name) <;> rfl

theorem participantLE_trans {a b c : UserResponse}
    (h1 : participantLE a b = true) (h2 : participantLE b c = true) :
    participantLE a c = true := by
  simp only [participantLE, ne_eq, decide_eq_true_eq] at h1 h2 ⊢
  unfold participantCompare at h1 h2 ⊢
  rcases hab : listNatCmp (lowerCodeUnits a.name) (lowerCodeUnits b.name) with
      _ | _ | _ <;> rw [hab] at h1 <;>
    rcases hbc : listNatCmp (lowerCodeUnits b.name) (lowerCodeUnits c.name) with
      _ | _ | _ <;> rw [hbc] at h2
  · rw [listNatCmp_lt_trans _ _ _ hab hbc]
    simp
  · rw [listNatCmp_eq_iff] at hbc
    rw [hbc] at hab
    rw [hab]
    simp
  · exact absurd rfl h2
  · rw [listNatCmp_eq_iff] at hab
    rw [← hab] at hbc
    rw [hbc]
    simp
  · rw [listNatCmp_eq_iff] at hab hbc
    rw [hab, hbc,
      (listNatCmp_eq_iff (lowerCodeUnits c.name) (lowerCodeUnits c.name)).mpr rfl]
    exact listNatCmp_le_trans h1 h2
  · exact absurd rfl h2
  · exact absurd rfl h1
  · exact absurd rfl h1
  · exact absurd rfl h1

theorem participantLE_total (a b : UserResponse) :
    participantLE a b = true ∨ participantLE b a = true := by
  simp only [participantLE, ne_eq, decide_eq_true_eq]
  rw [participantCompare_swap a b]
  cases participantCompare a b <;> simp [Ordering.swap]

theorem participantCompare_eq_of_le_le {a b : UserResponse}
    (h1 : participantLE a b = true) (h2 : participantLE b a = true) :
    participantCompare a b = .eq := by
  simp only [participantLE, ne_eq, decide_eq_true_eq] at h1 h2
  rw [participantCompare_swap a b] at h2
  cases h : participantCompare a b
  · rw [h] at h2
    simp [Ordering.swap] at h2
  · rfl
  · exact absurd h h1

theorem insertParticipant_perm (x : UserResponse) (l : List UserResponse) :
    (insertParticipant x l).Perm (x :: l) := by
  induction l with
  | nil => simp [insertParticipant]
  | cons y ys ih =>
    unfold insertParticipant
    split_ifs
    · exact List.Perm.refl _
    · exact (ih.cons y).trans (List.Perm.swap x y ys)

theorem sortParticipants_perm (l : List UserResponse) :
    (sortParticipants l).Perm l := by
  induction l with
  | nil => simp [sortParticipants]
  | cons x xs ih =>
    unfold sortParticipants
    exact (insertParticipant_perm x (sortParticipants xs)).trans (ih.cons x)

theorem insertParticipant_sorted {x : UserResponse} {l : List UserResponse}
    (hl : l.Pairwise (fun a b => participantLE a b = true)) :
    (insertParticipant x l).Pairwise (fun a b => participantLE a b = true) := by
  induction l with
  | nil => simp [insertParticipant]
  | cons y ys ih =>
    rw [List.pairwise_cons] at hl
    unfold insertParticipant
    split_ifs with hxy
    · rw [List.pairwise_cons]
      refine ⟨?_, List.pairwise_cons.mpr hl⟩
      intro b hb
      rcases List.mem_cons.mp hb with rfl | hb
      · exact hxy
      · exact participantLE_trans hxy (hl.1 b hb)
    · have hyx : participantLE y x = true := by
        rcases participantLE_total x y with h | h
        · exact absurd h hxy
        · exact h
      rw [List.pairwise_cons]
      refine ⟨?_, ih hl.2⟩
      intro b hb
      have hmem : b ∈ x :: ys := (insertParticipant_perm x ys).mem_iff.mp hb
      rcases List.mem_cons.mp hmem with rfl | hb'
      · exact hyx
      · exact hl.1 b hb'

theorem sortParticipants_sorted (l : List UserResponse) :
    (sortParticipants l).Pairwise (fun a b => participantLE a b = true) := by
  induction l with
  | nil => simp [sortParticipants]
  | cons x xs ih =>
    unfold sortParticipants
    exact insertParticipant_sorted ih

/-- Two sorted lists that are permutations of each other and whose elements
are separated by the comparator (no two distinct elements tie) are equal. -/
theorem sorted_perm_eq :
    ∀ (l1 l2 : List UserResponse), l1.Perm l2 →
      l1.Pairwise (fun a b => participantLE a b = true) →
      l2.Pairwise (fun a b => participantLE a b = true) →
      (∀ a ∈ l1, ∀ b ∈ l1, participantCompare a b = .eq → a = b) →
      l1 = l2 := by
  intro l1
  induction l1 with
  | nil =>
    intro l2 hp _ _ _
    exact (hp.nil_eq).symm ▸ rfl
  | cons a t1 ih =>
    intro l2 hp hs1 hs2 hkeys
    cases l2 with
    | nil => exact absurd hp.symm (by simp)
    | cons b t2 =>
      rw [List.pairwise_cons] at hs1 hs2
      by_cases hab : a = b
      · subst hab
        have ht : t1.Perm t2 := hp.cons_inv
        have := ih t2 ht hs1.2 hs2.2
          (fun x hx y hy h => hkeys x (List.mem_cons_of_mem a hx)
            y (List.mem_cons_of_mem a hy) h)
        rw [this]
      · have hbmem : b ∈ a :: t1 := hp.mem_iff.mpr (List.mem_cons_self b t2)
        have hamem : a ∈ b :: t2 := hp.mem_iff.mp (List.mem_cons_self a t1)
        have hb1 : b ∈ t1 := by
          rcases List.mem_cons.mp hbmem with h | h
          · exact absurd h.symm hab
          · exact h
        have ha2 : a ∈ t2 := by
          rcases List.mem_cons.mp hamem with h | h
          · exact absurd h hab
          · exact h
        have hle1 : participantLE a b = true := hs1.1 b hb1
        have hle2 : participantLE b a = true := hs2.1 a ha2
        have heq := participantCompare_eq_of_le_le hle1 hle2
        exact absurd (hkeys a (List.mem_cons_self a t1)
          b (List.mem_cons_of_mem a hb1) heq) hab

/-- Two distinct participants (different `isActive`) that tie under the
comparator: same session id and same name. -/
def tieFirst : UserResponse := ⟨"session-1", "Alice", true, false, none⟩

/-- The other element of the tie, differing from `tieFirst` only in
`isActive`. -/
def tieSecond : UserResponse := ⟨"session-1", "Alice", false, false, none⟩

/-- Claim C10 fails as stated: `sortParticipants` is stable, so two lists
containing the same participants can yield different orders when two
distinct participants tie under the comparator (same name and session id). -/
theorem C10_counterexample :
    ([tieFirst, tieSecond] : List UserResponse).Perm [tieSecond, tieFirst] ∧
    sortParticipants [tieFirst, tieSecond] ≠
      sortParticipants [tieSecond, tieFirst] :=
  ⟨List.Perm.swap tieSecond tieFirst [], by decide⟩

/-- Claim C10 (amended): `sortParticipants` is a pure, deterministic
ordering: for every input list it returns a permutation of that list sorted
case-insensitively by participant name with `sessionId` as the tie-breaker;
and two calls on lists containing the same participants yield the same
order provided no two distinct participants of the list tie under the
comparator (share both their case-insensitive name and their session id —
session ids are unique in practice). -/
theorem C10_sortParticipants_amended (l : List UserResponse) :
    (sortParticipants l).Perm l ∧
    (sortParticipants l).Pairwise (fun a b => participantLE a b = true) ∧
    (∀ l' : List UserResponse, l.Perm l' →
      (∀ a ∈ l, ∀ b ∈ l, participantCompare a b = .eq → a = b) →
      sortParticipants l = sortParticipants l') := by
  refine ⟨sortParticipants_perm l, sortParticipants_sorted l, ?_⟩
  intro l' hp hkeys
  apply sorted_perm_eq
  · exact (sortParticipants_perm l).trans
      (hp.trans (sortParticipants_perm l').symm)
  · exact sortParticipants_sorted l
  · exact sortParticipants_sorted l'
  · intro a ha b hb h
    exact hkeys a ((sortParticipants_perm l).mem_iff.mp ha)
      b ((sortParticipants_perm l).mem_iff.mp hb) h

/-- A participant named with a later letter than `sortWitnessSecond`,
used to instantiate the amended C10 theorem. -/
def sortWitnessFirst : UserResponse := ⟨"session-a", "bob", true, false, none⟩

/-- A participant sorting before `sortWitnessFirst` by name. -/
def sortWitnessSecond : UserResponse := ⟨"session-b", "alice", true, false, none⟩

/-- Witness for the amended C10 theorem at a concrete pair of participant
lists that are permutations of each other with no ties. -/
theorem C10_sortParticipants_amended_witness :
    sortParticipants [sortWitnessFirst, sortWitnessSecond] =
      sortParticipants [sortWitnessSecond, sortWitnessFirst] :=
  (C10_sortParticipants_amended [sortWitnessFirst, sortWitnessSecond]).2.2
    [sortWitnessSecond, sortWitnessFirst]
    (List.Perm.swap sortWitnessSecond sortWitnessFirst []) (by decide)

/-! ## Media bridge pool (`media_bridge_pool.ts`)

The pool owns a set of bridge instances; each instance keeps a `healthy`
flag and a `consecutiveFailures` counter updated by health probes and by
out-of-band success/failure reports.  Timing fields (`lastCheckedAt`,
`lastLatencyMs`) and the probe scheduling are not modelled. -/

/-- `MediaBridgeDefinition` (`media_bridge_pool.ts:4-11`): static
configuration of one bridge instance (the `metadata` record is not
modelled). -/
structure MediaBridgeDefinition where
  id : String
  baseUrl : String
  apiKey : Option String := none
  weight : Option Nat := none
  healthCheckPath : Option String := none
deriving DecidableEq, Repr

/-- `baseUrl.replace(/\/?$/, '/')`: ensure exactly one trailing slash. -/
def ensureTrailingSlash (s : String) : String :=
  if s.data.getLast? = some '/' then s else s ++ "/"

/-- A `MediaBridgeInstance` (`media_bridge_pool.ts:33-53`): configuration
plus the mutable health fields. -/
structure MediaBridgeInstance where
  id : String
  baseUrl : String
  apiKey : String
  weight : Nat
  healthCheckPath : String
  healthy : Bool
  consecutiveFailures : Nat
deriving DecidableEq, Repr

/-- The `MediaBridgeInstance` constructor: api key defaults to the empty
string, the weight is clamped to at least one (`Math.max(1, weight ?? 1)`),
a falsy health check path becomes `health`, and the instance starts healthy
with a zero failure counter. -/
def mkInstance (d : MediaBridgeDefinition) : MediaBridgeInstance :=
  { id := d.id
    baseUrl := ensureTrailingSlash d.baseUrl
    apiKey := d.apiKey.getD ""
    weight := max 1 (d.weight.getD 1)
    healthCheckPath :=
      match d.healthCheckPath with
      | some p => if p = "" then "health" else p
      | none => "health"
    healthy := true
    consecutiveFailures := 0 }

/-- The three values of the derived health state
(`media_bridge_pool.ts:18`). -/
inductive MediaBridgeHealthState where
  | healthy
  | unhealthy
  | degraded
deriving DecidableEq, Repr

/-- The derived `state` getter (`media_bridge_pool.ts:55-63`): `unhealthy`
when the flag is down, `degraded` when healthy but with a positive failure
counter, `healthy` otherwise. -/
def MediaBridgeInstance.state (s : MediaBridgeInstance) : MediaBridgeHealthState :=
  if s.healthy = false then .unhealthy
  else if 0 < s.consecutiveFailures then .degraded
  else .healthy

/-- `recordFailure` (`media_bridge_pool.ts:110-115`): increment the counter
and drop the healthy flag once the counter exceeds two. -/
def MediaBridgeInstance.recordFailure (s : MediaBridgeInstance) : MediaBridgeInstance :=
  { s with
    consecutiveFailures := s.consecutiveFailures + 1
    healthy := if 2 < s.consecutiveFailures + 1 then false else s.healthy }

/-- `recordSuccess` (`media_bridge_pool.ts:117-120`): reset the counter and
mark the instance healthy. -/
def MediaBridgeInstance.recordSuccess (s : MediaBridgeInstance) : MediaBridgeInstance :=
  { s with consecutiveFailures := 0, healthy := true }

/-- Outcome of one `probe` (`media_bridge_pool.ts:75-108`): a 2xx response,
a non-2xx response, or a transport error (the fetch threw). -/
inductive ProbeOutcome where
  | ok2xx
  | non2xx
  | transportError
deriving DecidableEq, Repr

/-- State effect of `probe`: both failure outcomes run the same updates as
`recordFailure` (increment, flip unhealthy past two); a success runs the
updates of `recordSuccess` (reset, mark healthy). -/
def MediaBridgeInstance.probe (s : MediaBridgeInstance) :
    ProbeOutcome → MediaBridgeInstance
  | .ok2xx => s.recordSuccess
  | .non2xx => s.recordFailure
  | .transportError => s.recordFailure

/-- Bridge-instance states reachable from construction through the
operations that touch the health fields. -/
inductive ReachableInstance : MediaBridgeInstance → Prop where
  | init (d : MediaBridgeDefinition) : ReachableInstance (mkInstance d)
  | probe {s : MediaBridgeInstance} (o : ProbeOutcome) :
      ReachableInstance s → ReachableInstance (s.probe o)
  | recordFailure {s : MediaBridgeInstance} :
      ReachableInstance s → ReachableInstance s.recordFailure
  | recordSuccess {s : MediaBridgeInstance} :
      ReachableInstance s → ReachableInstance s.recordSuccess

/-- `recordFailure` preserves the unhealthy-implies-three-failures
invariant. -/
theorem recordFailure_invariant {s : MediaBridgeInstance}
    (ih : s.healthy = false → 3 ≤ s.consecutiveFailures) :
    s.recordFailure.healthy = false → 3 ≤ s.recordFailure.consecutiveFailures := by
  simp only [MediaBridgeInstance.recordFailure]
  intro hfalse
  by_cases h2 : 2 < s.consecutiveFailures + 1
  · omega
  · rw [if_neg h2] at hfalse
    have := ih hfalse
    omega

/-- In every reachable instance state, an instance whose healthy flag is
down has accumulated at least three consecutive failures. -/
theorem reachable_unhealthy_failures {s : MediaBridgeInstance}
    (h : ReachableInstance s) : s.healthy = false → 3 ≤ s.consecutiveFailures := by
  induction h with
  | init d =>
    intro hfalse
    simp [mkInstance] at hfalse
  | probe o hs ih =>
    cases o with
    | ok2xx =>
      intro hfalse
      simp [MediaBridgeInstance.probe, MediaBridgeInstance.recordSuccess] at hfalse
    | non2xx => exact recordFailure_invariant ih
    | transportError => exact recordFailure_invariant ih
  | recordFailure hs ih => exact recordFailure_invariant ih
  | recordSuccess hs ih =>
    intro hfalse
    simp [MediaBridgeInstance.recordSuccess] at hfalse

/-- Claim C3: for every reachable bridge-instance state, a probe failure
(non-2xx response or transport error) increments the consecutive-failure
counter, and the instance is unhealthy after the probe exactly when the
incremented counter has reached three or more; a successful probe resets
the counter to zero and marks the instance healthy immediately.  The same
holds for the out-of-band `recordFailure` / `recordSuccess` reports. -/
theorem C3_probe_failure_threshold {s : MediaBridgeInstance}
    (hs : ReachableInstance s) :
    (∀ o : ProbeOutcome, o ≠ .ok2xx →
      (s.probe o).consecutiveFailures = s.consecutiveFailures + 1 ∧
      ((s.probe o).healthy = false ↔ 3 ≤ s.consecutiveFailures + 1)) ∧
    ((s.probe .ok2xx).consecutiveFailures = 0 ∧
      (s.probe .ok2xx).healthy = true) ∧
    (s.recordFailure.consecutiveFailures = s.consecutiveFailures + 1 ∧
      (s.recordFailure.healthy = false ↔ 3 ≤ s.consecutiveFailures + 1)) ∧
    (s.recordSuccess.consecutiveFailures = 0 ∧
      s.recordSuccess.healthy = true) := by
  have hfail : s.recordFailure.consecutiveFailures = s.consecutiveFailures + 1 ∧
      (s.recordFailure.healthy = false ↔ 3 ≤ s.consecutiveFailures + 1) := by
    refine ⟨rfl, ?_⟩
    simp only [MediaBridgeInstance.recordFailure]
    by_cases h2 : 2 < s.consecutiveFailures + 1
    · rw [if_pos h2]
      constructor
      · intro _; omega
      · intro _; rfl
    · rw [if_neg h2]
      constructor
      · intro hfalse
        have := reachable_unhealthy_failures hs hfalse
        omega
      · intro h3; omega
  refine ⟨?_, ⟨rfl, rfl⟩, hfail, ⟨rfl, rfl⟩⟩
  intro o ho
  cases o with
  | ok2xx => exact absurd rfl ho
  | non2xx => exact hfail
  | transportError => exact hfail

/-- A concrete bridge definition used to instantiate the bridge-instance
theorems. -/
def probeWitnessDef : MediaBridgeDefinition :=
  { id := "bridge-1", baseUrl := "http://bridge-1.local/" }

/-- Witness for C3 at a freshly constructed instance: a first failed probe
sets the counter to one and keeps the instance healthy; a successful probe
resets it. -/
theorem C3_probe_failure_threshold_witness :
    ((mkInstance probeWitnessDef).probe .non2xx).consecutiveFailures =
        (mkInstance probeWitnessDef).consecutiveFailures + 1 ∧
      (((mkInstance probeWitnessDef).probe .ok2xx).consecutiveFailures = 0 ∧
        ((mkInstance probeWitnessDef).probe .ok2xx).healthy = true) :=
  ⟨((C3_probe_failure_threshold
      (ReachableInstance.init probeWitnessDef)).1 .non2xx (by decide)).1,
    (C3_probe_failure_threshold
      (ReachableInstance.init probeWitnessDef)).2.1⟩

/-- Claim C9: in every reachable bridge-instance state, a false healthy
flag implies at least three consecutive failures, and the derived state is
`unhealthy` exactly when the flag is false, `degraded` exactly when the
flag is true with a positive counter, and `healthy` otherwise. -/
theorem C9_state_invariant {s : MediaBridgeInstance}
    (hs : ReachableInstance s) :
    (s.healthy = false → 3 ≤ s.consecutiveFailures) ∧
    (s.state = .unhealthy ↔ s.healthy = false) ∧
    (s.state = .degraded ↔ (s.healthy = true ∧ 0 < s.consecutiveFailures)) ∧
    (s.state = .healthy ↔ (s.healthy = true ∧ s.consecutiveFailures = 0)) := by
  refine ⟨reachable_unhealthy_failures hs, ?_, ?_, ?_⟩ <;>
    simp only [MediaBridgeInstance.state] <;>
    cases hh : s.healthy <;>
    by_cases hc : 0 < s.consecutiveFailures <;>
    simp [hh, hc] <;>
    omega

/-- Witness for C9 at a freshly constructed instance. -/
theorem C9_state_invariant_witness :
    (mkInstance probeWitnessDef).state = .healthy ↔
      ((mkInstance probeWitnessDef).healthy = true ∧
        (mkInstance probeWitnessDef).consecutiveFailures = 0) :=
  (C9_state_invariant (ReachableInstance.init probeWitnessDef)).2.2.2

/-- The pool state: the constructed bridge instances
(`media_bridge_pool.ts:142-154`; the probe timer is not modelled). -/
structure MediaBridgePool where
  bridges : List MediaBridgeInstance
deriving DecidableEq, Repr

/-- The `MediaBridgePool` constructor (`media_bridge_pool.ts:147-154`): an
empty definitions list throws; otherwise every definition becomes an
instance. -/
def mkMediaBridgePool (definitions : List MediaBridgeDefinition) :
    Except String MediaBridgePool :=
  if definitions.length = 0 then
    .error "MediaBridgePool requires at least one media bridge definition"
  else .ok ⟨definitions.map mkInstance⟩

/-- One entry of the parsed MEDIA_BRIDGES environment JSON array; fields
may be absent. -/
structure EnvBridgeEntry where
  id : Option String := none
  baseUrl : Option String := none
  apiKey : Option String := none
  weight : Option Nat := none
  healthCheckPath : Option String := none
deriving DecidableEq, Repr

/-- The validation loop of `fromEnv` (`media_bridge_pool.ts:244-263`): each
entry needs a truthy id and baseUrl; an invalid entry throws out of the
`forEach` into the catch, so the entries pushed before the first invalid
one are kept. -/
def validEnvDefinitions : List EnvBridgeEntry → List MediaBridgeDefinition
  | [] => []
  | e :: rest =>
    match e.id, e.baseUrl with
    | some i, some b =>
      if i = "" ∨ b = "" then []
      else
        { id := i, baseUrl := b, apiKey := e.apiKey, weight := e.weight,
          healthCheckPath := e.healthCheckPath } :: validEnvDefinitions rest
    | some i, none =>
      if i = "" then [] else []
    | none, _ => []

/-- The definitions list assembled by `fromEnv`
(`media_bridge_pool.ts:243-276`): the validated environment entries
(`none` when the variable was absent or did not parse to an array), with a
single default definition pushed when none survive. -/
def fromEnvDefinitions (envEntries : Option (List EnvBridgeEntry))
    (defaultBaseUrl : String) (defaultApiKey : Option String) :
    List MediaBridgeDefinition :=
  let definitions :=
    match envEntries with
    | some entries => validEnvDefinitions entries
    | none => []
  if definitions.length = 0 then
    [{ id := "default", baseUrl := defaultBaseUrl, apiKey := defaultApiKey,
       weight := some 1 }]
  else definitions

/-- `fromEnv` (`media_bridge_pool.ts:237-281`): construct the pool from the
assembled definitions. -/
def fromEnv (envEntries : Option (List EnvBridgeEntry))
    (defaultBaseUrl : String) (defaultApiKey : Option String) :
    Except String MediaBridgePool :=
  mkMediaBridgePool (fromEnvDefinitions envEntries defaultBaseUrl defaultApiKey)

/-- `fromEnv` never assembles an empty definitions list. -/
theorem fromEnvDefinitions_ne_nil (envEntries : Option (List EnvBridgeEntry))
    (defaultBaseUrl : String) (defaultApiKey : Option String) :
    (fromEnvDefinitions envEntries defaultBaseUrl defaultApiKey).length ≠ 0 := by
  simp only [fromEnvDefinitions]
  split_ifs with h
  · simp
  · exact h

/-- Claim C8: constructing a pool from zero definitions fails with an
error, every successfully constructed pool holds at least one instance, and
`fromEnv` always constructs successfully (it falls back to a default
definition). -/
theorem C8_pool_never_empty :
    mkMediaBridgePool [] =
        .error "MediaBridgePool requires at least one media bridge definition" ∧
    (∀ (definitions : List MediaBridgeDefinition) (p : MediaBridgePool),
      mkMediaBridgePool definitions = .ok p → 0 < p.bridges.length) ∧
    (∀ (env : Option (List EnvBridgeEntry)) (url : String) (key : Option String),
      ∃ p, fromEnv env url key = .ok p ∧ 0 < p.bridges.length) := by
  have hok : ∀ (definitions : List MediaBridgeDefinition) (p : MediaBridgePool),
      mkMediaBridgePool definitions = .ok p → 0 < p.bridges.length := by
    intro definitions p hp
    unfold mkMediaBridgePool at hp
    by_cases hlen : definitions.length = 0
    · rw [if_pos hlen] at hp
      cases hp
    · rw [if_neg hlen] at hp
      injection hp with hp
      rw [← hp]
      show 0 < (List.map mkInstance definitions).length
      rw [List.length_map]
      omega
  refine ⟨rfl, hok, ?_⟩
  intro env url key
  unfold fromEnv
  unfold mkMediaBridgePool
  rw [if_neg (fromEnvDefinitions_ne_nil env url key)]
  refine ⟨_, rfl, ?_⟩
  show 0 < (List.map mkInstance (fromEnvDefinitions env url key)).length
  rw [List.length_map]
  have := fromEnvDefinitions_ne_nil env url key
  omega

/-- Witness for C8: a one-definition pool constructs with one instance. -/
theorem C8_pool_never_empty_witness :
    0 < (MediaBridgePool.mk [mkInstance probeWitnessDef]).bridges.length :=
  C8_pool_never_empty.2.1 [probeWitnessDef]
    (MediaBridgePool.mk [mkInstance probeWitnessDef]) rfl

/-- `BridgeSelectionOptions` (`media_bridge_pool.ts:13-16`). -/
structure BridgeSelectionOptions where
  affinityKey : Option String := none
  allowUnhealthy : Bool := false
deriving DecidableEq, Repr

/-- Wrap an integer to JavaScript 32-bit signed semantics (`| 0`). -/
def toInt32 (n : Int) : Int := (n + 2 ^ 31) % 2 ^ 32 - 2 ^ 31

/-- One step of the affinity hash
(`hash = (hash << 5) - hash + charCode; hash |= 0`); the shift itself is a
32-bit operation. -/
def jsHashStep (h : Int) (c : Nat) : Int :=
  toInt32 (toInt32 (h * 2 ^ 5) - h + c)

/-- `MediaBridgePool.hash` (`media_bridge_pool.ts:228-235`): fold the hash
step over the character codes of the key and take the absolute value. -/
def jsHash (s : String) : Nat :=
  (s.data.foldl (fun h c => jsHashStep h c.toNat) 0).natAbs

/-- The affinity scan (`media_bridge_pool.ts:184-191`): accumulate weights
and select the first candidate whose cumulative weight exceeds `m`. -/
def scanAffinity (m : Nat) : Nat → List MediaBridgeInstance → Option MediaBridgeInstance
  | _, [] => none
  | cursor, b :: rest =>
    if m < cursor + b.weight then some b else scanAffinity m (cursor + b.weight) rest

/-- The weighted random scan (`media_bridge_pool.ts:195-205`): `pick` is
`Math.random() * totalWeight`; select the first candidate whose cumulative
weight reaches `pick`. -/
def scanRandom (pick : ℚ) : ℚ → List MediaBridgeInstance → Option MediaBridgeInstance
  | _, [] => none
  | cursor, b :: rest =>
    if pick ≤ cursor + (b.weight : ℚ) then some b
    else scanRandom pick (cursor + (b.weight : ℚ)) rest

/-- The candidate set of `getBridge` (`media_bridge_pool.ts:172-174`): the
healthy instances, unless there are none or the caller allows unhealthy
ones, in which case all instances are eligible. -/
def poolCandidates (pool : MediaBridgePool) (allowUnhealthy : Bool) :
    List MediaBridgeInstance :=
  let healthy := pool.bridges.filter (fun b => b.healthy)
  if healthy.length ≠ 0 ∧ allowUnhealthy = false then healthy else pool.bridges

/-- The affinity branch of `getBridge` (`media_bridge_pool.ts:180-192`): a
truthy (non-empty) key with more than one candidate hashes the key into the
cumulative weight range.  Otherwise no instance is selected here. -/
def affinitySelect (key : String) (candidates : List MediaBridgeInstance) :
    Option MediaBridgeInstance :=
  if key ≠ "" ∧ 1 < candidates.length then
    scanAffinity (jsHash key % (candidates.map (fun b => b.weight)).sum) 0 candidates
  else none

/-- `MediaBridgePool.getBridge` (`media_bridge_pool.ts:171-209`): restrict
to the candidate set, throw when it is empty, try the affinity branch, fall
back to the weighted random draw (`rand` is the drawn `Math.random()`
value), and default to the first candidate. -/
def getBridge (pool : MediaBridgePool) (options : BridgeSelectionOptions)
    (rand : ℚ) : Except String MediaBridgeInstance :=
  match poolCandidates pool options.allowUnhealthy with
  | [] => .error "No media bridges configured"
  | c0 :: rest =>
    let affinitySelected : Option MediaBridgeInstance :=
      match options.affinityKey with
      | some key => affinitySelect key (c0 :: rest)
      | none => none
    let selected : Option MediaBridgeInstance :=
      match affinitySelected with
      | some b => some b
      | none =>
        scanRandom (rand * (((c0 :: rest).map (fun b => b.weight)).sum : ℚ))
          0 (c0 :: rest)
    .ok (selected.getD c0)

/-- When `m` lies inside the remaining cumulative weight range the affinity
scan selects a candidate. -/
theorem scanAffinity_isSome (m : Nat) :
    ∀ (l : List MediaBridgeInstance) (cursor : Nat), cursor ≤ m →
      m < cursor + (l.map (fun b => b.weight)).sum →
      ∃ b, scanAffinity m cursor l = some b := by
  intro l
  induction l with
  | nil =>
    intro cursor h1 h2
    simp at h2
    omega
  | cons b bs ih =>
    intro cursor h1 h2
    unfold scanAffinity
    split_ifs with hm
    · exact ⟨b, rfl⟩
    · refine ih (cursor + b.weight) (by omega) ?_
      simp only [List.map_cons, List.sum_cons] at h2
      omega

/-- When every candidate weight is zero the affinity scan selects nothing. -/
theorem scanAffinity_zero (m : Nat) :
    ∀ (l : List MediaBridgeInstance) (cursor : Nat),
      (∀ b ∈ l, b.weight = 0) → ¬m < cursor →
      scanAffinity m cursor l = none := by
  intro l
  induction l with
  | nil => intro cursor _ _; rfl
  | cons b bs ih =>
    intro cursor hw hm
    unfold scanAffinity
    have hb : b.weight = 0 := hw b (List.mem_cons_self b bs)
    rw [hb]
    rw [if_neg (by omega)]
    exact ih (cursor + 0) (fun x hx => hw x (List.mem_cons_of_mem b hx))
      (by omega)

/-- The random scan over a single candidate either selects it or selects
nothing, so with the fallback to the first candidate the result is that
candidate either way. -/
theorem scanRandom_single_getD (p : ℚ) (c0 : MediaBridgeInstance) :
    (scanRandom p 0 [c0]).getD c0 = c0 := by
  unfold scanRandom
  split_ifs
  · rfl
  · rfl

/-- A healthy weight-one bridge instance (as freshly constructed for a
definition with id `bridge-a`). -/
def affinityInstA : MediaBridgeInstance :=
  { id := "bridge-a", baseUrl := "http://bridge-a.local/", apiKey := "",
    weight := 1, healthCheckPath := "health", healthy := true,
    consecutiveFailures := 0 }

/-- A second healthy weight-one bridge instance. -/
def affinityInstB : MediaBridgeInstance :=
  { id := "bridge-b", baseUrl := "http://bridge-b.local/", apiKey := "",
    weight := 1, healthCheckPath := "health", healthy := true,
    consecutiveFailures := 0 }

/-- A two-instance pool with both instances healthy. -/
def affinityPool : MediaBridgePool := ⟨[affinityInstA, affinityInstB]⟩

/-- Claim C4 fails as stated for the empty-string affinity key: the code
treats a supplied empty key as falsy and falls back to the weighted random
draw, so two calls with the same key `""` on the same healthy candidate set
can return different instances (here with draws 3/10 and 9/10). -/
theorem C4_counterexample :
    getBridge affinityPool ⟨some "", false⟩ (3 / 10) ≠
      getBridge affinityPool ⟨some "", false⟩ (9 / 10) := by
  have h1 : getBridge affinityPool ⟨some "", false⟩ (3 / 10) =
      .ok affinityInstA := by
    norm_num [getBridge, poolCandidates, affinitySelect, scanRandom,
      List.filter, affinityPool, affinityInstA, affinityInstB]
  have h2 : getBridge affinityPool ⟨some "", false⟩ (9 / 10) =
      .ok affinityInstB := by
    norm_num [getBridge, poolCandidates, affinitySelect, scanRandom,
      List.filter, affinityPool, affinityInstA, affinityInstB]
  rw [h1, h2]
  simp [affinityInstA, affinityInstB]

/-- Casting a weight sum to the rationals commutes with summing the cast
weights. -/
theorem sum_map_weight_cast (l : List MediaBridgeInstance) :
    (l.map (fun b => (b.weight : ℚ))).sum =
      Nat.cast ((l.map (fun b => b.weight)).sum) := by
  induction l with
  | nil => simp
  | cons b bs ih => simp [ih]

/-- Claim C4 (amended): bridge selection with a NON-EMPTY affinity key is
deterministic: two calls to `getBridge` with the same non-empty key against
the same pool state (same instances, weights and health flags) return the
same result regardless of the random draws; an empty-string key is treated
by the code as no key at all and selects randomly. -/
theorem C4_affinity_deterministic_amended (pool : MediaBridgePool)
    (key : String) (allow : Bool) (hkey : key ≠ "") (r1 r2 : ℚ) :
    getBridge pool ⟨some key, allow⟩ r1 = getBridge pool ⟨some key, allow⟩ r2 := by
  unfold getBridge
  simp only
  cases hc : poolCandidates pool allow with
  | nil => rfl
  | cons c0 rest =>
    cases rest with
    | nil =>
      simp only [affinitySelect, List.length_cons, List.length_nil]
      rw [if_neg (by omega)]
      simp only
      rw [scanRandom_single_getD, scanRandom_single_getD]
    | cons c1 rest' =>
      simp only [affinitySelect]
      rw [if_pos ⟨hkey, by simp⟩]
      cases ha : scanAffinity
          (jsHash key % ((c0 :: c1 :: rest').map (fun b => b.weight)).sum) 0
          (c0 :: c1 :: rest') with
      | some b => simp
      | none =>
        have hsum : ((c0 :: c1 :: rest').map (fun b => b.weight)).sum = 0 := by
          by_contra hne
          obtain ⟨b, hb⟩ := scanAffinity_isSome
            (jsHash key % ((c0 :: c1 :: rest').map (fun b => b.weight)).sum)
            (c0 :: c1 :: rest') 0 (Nat.zero_le _)
            (by simpa using Nat.mod_lt (jsHash key) (Nat.pos_of_ne_zero hne))
          rw [ha] at hb
          cases hb
        have hcast : ((c0 :: c1 :: rest').map (fun b => (b.weight : ℚ))).sum = 0 := by
          rw [sum_map_weight_cast, hsum]
          norm_num
        simp only [hcast, mul_zero]

/-- Witness for the amended C4 theorem: a concrete non-empty key on the
two-instance pool selects the same instance for two different random
draws. -/
theorem C4_affinity_deterministic_amended_witness :
    getBridge affinityPool ⟨some "line-1", false⟩ (3 / 10) =
      getBridge affinityPool ⟨some "line-1", false⟩ (9 / 10) :=
  C4_affinity_deterministic_amended affinityPool "line-1" false (by decide)
    (3 / 10) (9 / 10)

/-! ## HTTP handlers (`api_productions.ts`)

Each handler is embedded as a pure function from the outcomes of its
asynchronous calls (in call order) to its reply.  A collaborator call that
threw is an `Except.error`; the handler's `try`/`catch` turns any error
into its 500 reply.  The network, timers and `await` points themselves are
not modelled: only the decision logic of the handler. -/

/-- The audio block of a bridge endpoint description; only the field the
handlers inspect (`ssrcs`) is modelled, as an optional list of
synchronization sources. -/
structure SmbAudio where
  ssrcs : Option (List Nat) := none
deriving DecidableEq, Repr

/-- A bridge endpoint description (`SmbEndpointDescription`); only the
`audio` block matters to the handlers. -/
structure SmbEndpointDescription where
  audio : Option SmbAudio := none
deriving DecidableEq, Repr

/-- Outcomes of the asynchronous calls made by the `POST /session` handler
(`api_productions.ts:649-744`), in call order. -/
structure SessionExternalCalls where
  createConferenceForLine : Except String String
  createUserSession : Except String Unit
  createEndpoint : Except String SmbEndpointDescription
  updateSession : Except String Unit
  createConnection : Except String String
deriving Repr

/-- Replies of `POST /session`: 201 with session id and sdp, 400 with the
no-offer message, or the catch-all 500. -/
inductive PostSessionResponse where
  | created (sessionId sdp : String)
  | badRequest (message stackTrace : String)
  | serverError (message : String)
deriving DecidableEq, Repr

/-- HTTP status of a `POST /session` reply. -/
def PostSessionResponse.status : PostSessionResponse → Nat
  | .created _ _ => 201
  | .badRequest _ _ => 400
  | .serverError _ => 500

/-- The `POST /session` handler (`api_productions.ts:649-744`): run the
calls in order; a missing audio block or missing ssrcs in the endpoint
description throws; every thrown error is caught into the 500 reply; a
falsy (empty) sdp offer yields the 400 reply; otherwise reply 201 with the
generated session id and the offer. -/
def postSessionHandler (sessionId : String) (ext : SessionExternalCalls) :
    PostSessionResponse :=
  match ext.createConferenceForLine with
  | .error e =>
    .serverError ("Exception thrown when trying to create endpoint: " ++ e)
  | .ok _ =>
  match ext.createUserSession with
  | .error e =>
    .serverError ("Exception thrown when trying to create endpoint: " ++ e)
  | .ok _ =>
  match ext.createEndpoint with
  | .error e =>
    .serverError ("Exception thrown when trying to create endpoint: " ++ e)
  | .ok endpoint =>
  match endpoint.audio with
  | none =>
    .serverError
      "Exception thrown when trying to create endpoint: Error: Missing audio when creating sdp offer for endpoint"
  | some audio =>
  match audio.ssrcs with
  | none =>
    .serverError
      "Exception thrown when trying to create endpoint: Error: Missing ssrcs when creating sdp offer for endpoint"
  | some _ =>
  match ext.updateSession with
  | .error e =>
    .serverError ("Exception thrown when trying to create endpoint: " ++ e)
  | .ok _ =>
  match ext.createConnection with
  | .error e =>
    .serverError ("Exception thrown when trying to create endpoint: " ++ e)
  | .ok sdpOffer =>
    if sdpOffer ≠ "" then .created sessionId sdpOffer
    else
      .badRequest "Could not establish a media connection"
        "Failed to generate sdp offer for endpoint"

/-- A stored user session record (`UserSession` in the models); only the
fields the PATCH handler inspects are modelled. -/
structure UserSession where
  productionId : String
  lineId : String
  endpointId : Option String := none
  sessionDescription : Option SmbEndpointDescription := none
deriving DecidableEq, Repr

/-- The retry guard of the PATCH handler (`api_productions.ts:768-772`):
retry while the session is missing or its description has not been written
yet. -/
def needsRetry : Option UserSession → Bool
  | none => true
  | some s => s.sessionDescription.isNone

/-- The bounded re-read loop (`api_productions.ts:765-775`): `reads i` is
the result of the i-th `dbManager.getSession` call (the 0th being the
initial read); while the guard holds and fuel remains, re-read after the
100 ms sleep (the sleep itself is not modelled). -/
def retryRead (reads : Nat → Option UserSession) (i : Nat) :
    Nat → Option UserSession
  | 0 => reads i
  | fuel + 1 =>
    if needsRetry (reads i) then retryRead reads (i + 1) fuel else reads i

/-- The session value the PATCH handler ends up with: the initial read
plus up to five re-reads. -/
def patchSessionRead (reads : Nat → Option UserSession) : Option UserSession :=
  retryRead reads 0 5

/-- A production line (`Line` in the models); the fields used by the
handlers. -/
structure ProductionLine where
  id : String
  name : String
  smbConferenceId : Option String := none
  programOutputLine : Bool := false
deriving DecidableEq, Repr

/-- Outcomes of the downstream calls of the `PATCH /session/:sessionId`
handler (`api_productions.ts:746-826`), in call order. -/
structure PatchExternalCalls where
  updateSession : Except String Unit
  requireProduction : Except String Unit
  requireLine : Except String ProductionLine
  handleAnswerRequest : Except String Unit
deriving Repr

/-- Replies of `PATCH /session/:sessionId`. -/
inductive PatchSessionResponse where
  | noContent
  | gone (message : String)
  | serverError (message : String)
deriving DecidableEq, Repr

/-- HTTP status of a `PATCH /session/:sessionId` reply. -/
def PatchSessionResponse.status : PatchSessionResponse → Nat
  | .noContent => 204
  | .gone _ => 410
  | .serverError _ => 500

/-- The `PATCH /session/:sessionId` handler (`api_productions.ts:746-826`):
re-read the session with the bounded retry loop; a still-missing session is
410; then update the session, resolve production and line, require the
stored description and endpoint id (throwing when absent), apply the
answer, and reply 204; every thrown error is caught into the 500 reply. -/
def patchSessionHandler (sessionId : String)
    (reads : Nat → Option UserSession) (ext : PatchExternalCalls) :
    PatchSessionResponse :=
  match patchSessionRead reads with
  | none => .gone ("User session id \"" ++ sessionId ++ "\" not found.")
  | some userSession =>
  match ext.updateSession with
  | .error e =>
    .serverError ("Exception thrown when trying to configure endpoint: " ++ e)
  | .ok _ =>
  match ext.requireProduction with
  | .error e =>
    .serverError ("Exception thrown when trying to configure endpoint: " ++ e)
  | .ok _ =>
  match ext.requireLine with
  | .error e =>
    .serverError ("Exception thrown when trying to configure endpoint: " ++ e)
  | .ok _ =>
  match userSession.sessionDescription with
  | none =>
    .serverError
      "Exception thrown when trying to configure endpoint: Error: Could not get connection endpoint description"
  | some _ =>
  match userSession.endpointId with
  | none =>
    .serverError
      "Exception thrown when trying to configure endpoint: Error: Could not get connection endpoint id"
  | some _ =>
  match ext.handleAnswerRequest with
  | .error e =>
    .serverError ("Exception thrown when trying to configure endpoint: " ++ e)
  | .ok _ => .noContent

/-- External-call outcomes where the bridge returns an endpoint description
without an audio block and everything else succeeds. -/
def missingAudioCalls : SessionExternalCalls :=
  { createConferenceForLine := .ok "conf-1"
    createUserSession := .ok ()
    createEndpoint := .ok { audio := none }
    updateSession := .ok ()
    createConnection := .ok "v=0" }

/-- Claim C1 fails as stated: when the endpoint description lacks the audio
block the handler throws, and the catch block replies 500 — not 400 — so
the stated 201-or-400 dichotomy does not hold (session creation is still
rejected and no offer is returned). -/
theorem C1_counterexample :
    (postSessionHandler "sid-1" missingAudioCalls).status = 500 ∧
    (postSessionHandler "sid-1" missingAudioCalls).status ≠ 201 ∧
    (postSessionHandler "sid-1" missingAudioCalls).status ≠ 400 := by
  refine ⟨rfl, by decide, by decide⟩

/-- Claim C1 (amended): the handler replies 201 with the generated session
id and a non-empty sdp offer exactly when every call succeeded and the
endpoint description carried audio with ssrcs — when all bridge/storage
calls succeed, the description is complete and the produced offer is
non-empty, the reply IS 201 with that offer, and conversely a 201 reply
implies all of this, so no partial offer is ever returned; it replies 400
exactly when every call succeeded, the description was complete, but the
produced offer was falsy (empty); and a description lacking audio or ssrcs
makes the handler throw, which is caught into the 500 reply (not 400). -/
theorem C1_session_offer_amended (sessionId : String)
    (ext : SessionExternalCalls) :
    (∀ endpoint, ext.createEndpoint = .ok endpoint →
      (endpoint.audio = none ∨
        ∃ audio, endpoint.audio = some audio ∧ audio.ssrcs = none) →
      (postSessionHandler sessionId ext).status = 500) ∧
    (∀ sid sdp, postSessionHandler sessionId ext = .created sid sdp →
      sid = sessionId ∧ sdp ≠ "" ∧ ext.createConnection = .ok sdp ∧
      ∃ endpoint audio ssrcs, ext.createEndpoint = .ok endpoint ∧
        endpoint.audio = some audio ∧ audio.ssrcs = some ssrcs) ∧
    ((∃ m st, postSessionHandler sessionId ext = .badRequest m st) ↔
      ((∃ confId, ext.createConferenceForLine = .ok confId) ∧
        ext.createUserSession = .ok () ∧
        (∃ endpoint audio ssrcs, ext.createEndpoint = .ok endpoint ∧
          endpoint.audio = some audio ∧ audio.ssrcs = some ssrcs) ∧
        ext.updateSession = .ok () ∧ ext.createConnection = .ok "")) ∧
    (∀ confId endpoint audio ssrcs sdp,
      ext.createConferenceForLine = .ok confId →
      ext.createUserSession = .ok () →
      ext.createEndpoint = .ok endpoint →
      endpoint.audio = some audio → audio.ssrcs = some ssrcs →
      ext.updateSession = .ok () →
      ext.createConnection = .ok sdp → sdp ≠ "" →
      postSessionHandler sessionId ext = .created sessionId sdp) := by
  unfold postSessionHandler
  rcases h1 : ext.createConferenceForLine with e1 | confId <;>
    rcases h2 : ext.createUserSession with e2 | u <;>
      rcases h3 : ext.createEndpoint with e3 | endpoint <;>
        rcases h4 : ext.updateSession with e4 | u' <;>
          rcases h5 : ext.createConnection with e5 | sdp <;>
            simp_all [PostSessionResponse.status]
  all_goals
    rcases haudio : endpoint.audio with _ | audio <;>
      simp_all [PostSessionResponse.status]
  all_goals
    rcases hssrcs : audio.ssrcs with _ | ssrcs <;>
      simp_all [PostSessionResponse.status]
  all_goals
    by_cases hsdp : sdp = "" <;> simp_all [PostSessionResponse.status]

/-- External-call outcomes where the endpoint description has an audio
block but no ssrcs. -/
def missingSsrcsCalls : SessionExternalCalls :=
  { createConferenceForLine := .ok "conf-2"
    createUserSession := .ok ()
    createEndpoint := .ok { audio := some { ssrcs := none } }
    updateSession := .ok ()
    createConnection := .ok "v=0" }

/-- External-call outcomes where every call succeeds, the endpoint
description is complete and the produced offer is non-empty. -/
def happyPathCalls : SessionExternalCalls :=
  { createConferenceForLine := .ok "conf-3"
    createUserSession := .ok ()
    createEndpoint := .ok { audio := some { ssrcs := some [2002] } }
    updateSession := .ok ()
    createConnection := .ok "v=0 happy" }

/-- Witness for the amended C1 theorem: missing ssrcs at a concrete input
yields the 500 reply, and a concrete fully successful input yields the 201
reply with the generated session id and the offer. -/
theorem C1_session_offer_amended_witness :
    (postSessionHandler "sid-2" missingSsrcsCalls).status = 500 ∧
    postSessionHandler "sid-4" happyPathCalls = .created "sid-4" "v=0 happy" :=
  ⟨(C1_session_offer_amended "sid-2" missingSsrcsCalls).1
      { audio := some { ssrcs := none } } rfl
      (Or.inr ⟨{ ssrcs := none }, rfl, rfl⟩),
    (C1_session_offer_amended "sid-4" happyPathCalls).2.2.2 "conf-3"
      { audio := some { ssrcs := some [2002] } } { ssrcs := some [2002] }
      [2002] "v=0 happy" rfl rfl rfl rfl rfl rfl rfl (by decide)⟩

/-- The retry loop only looks at reads 0 through `i + fuel`. -/
theorem retryRead_congr (reads reads' : Nat → Option UserSession) :
    ∀ (fuel i : Nat), (∀ j, j ≤ i + fuel → reads j = reads' j) →
      retryRead reads i fuel = retryRead reads' i fuel := by
  intro fuel
  induction fuel with
  | zero =>
    intro i h
    exact h i (by omega)
  | succ n ih =>
    intro i h
    unfold retryRead
    rw [h i (by omega)]
    split_ifs
    · exact ih (i + 1) (fun j hj => h j (by omega))
    · rfl

/-- Claim C2: the `PATCH /session/:sessionId` handler replies 410 exactly
when the session is still unknown after the bounded retry window; replies
204 when the session record with its description (and endpoint id) was
found and all downstream calls succeed; once a session record was found the
reply is never 410 — any downstream failure becomes 500; the retry loop
reads the store at most six times (the initial read plus five re-reads, the
100 ms spacing being real time outside the model); and when the very first
read already carries the description no retry happens. -/
theorem C2_patch_session (sessionId : String)
    (reads : Nat → Option UserSession) (ext : PatchExternalCalls) :
    (patchSessionRead reads = none →
      patchSessionHandler sessionId reads ext =
        .gone ("User session id \"" ++ sessionId ++ "\" not found.")) ∧
    (∀ s d e, patchSessionRead reads = some s →
      s.sessionDescription = some d → s.endpointId = some e →
      ext.updateSession = .ok () → ext.requireProduction = .ok () →
      (∃ line, ext.requireLine = .ok line) →
      ext.handleAnswerRequest = .ok () →
      patchSessionHandler sessionId reads ext = .noContent) ∧
    (∀ s, patchSessionRead reads = some s →
      patchSessionHandler sessionId reads ext = .noContent ∨
      ∃ m, patchSessionHandler sessionId reads ext = .serverError m) ∧
    (∀ reads' : Nat → Option UserSession, (∀ j, j ≤ 5 → reads j = reads' j) →
      patchSessionRead reads = patchSessionRead reads') ∧
    (∀ s, reads 0 = some s → s.sessionDescription.isSome →
      patchSessionRead reads = reads 0) := by
  refine ⟨?_, ?_, ?_, ?_, ?_⟩
  · intro hnone
    simp only [patchSessionHandler, hnone]
  · intro s d e hs hd he hupd hprod hline' hans
    obtain ⟨line, hline⟩ := hline'
    simp only [patchSessionHandler, hs, hupd, hprod, hline, hd, he, hans]
  · intro s hs
    simp only [patchSessionHandler, hs]
    rcases h1 : ext.updateSession with e1 | u1
    · exact Or.inr ⟨_, rfl⟩
    simp only
    rcases h2 : ext.requireProduction with e2 | u2
    · exact Or.inr ⟨_, rfl⟩
    rcases h3 : ext.requireLine with e3 | line
    · exact Or.inr ⟨_, rfl⟩
    rcases hd : s.sessionDescription with _ | d
    · exact Or.inr ⟨_, rfl⟩
    rcases he : s.endpointId with _ | e
    · exact Or.inr ⟨_, rfl⟩
    rcases h4 : ext.handleAnswerRequest with e4 | u4
    · exact Or.inr ⟨_, rfl⟩
    exact Or.inl rfl
  · intro reads' h
    exact retryRead_congr reads reads' 5 0 (fun j hj => h j (by omega))
  · intro s h0 hdesc
    have hnr : needsRetry (reads 0) = false := by
      rw [h0]
      show s.sessionDescription.isNone = false
      cases hd : s.sessionDescription with
      | none =>
        rw [hd] at hdesc
        simp at hdesc
      | some d => simp
    show retryRead reads 0 (4 + 1) = reads 0
    unfold retryRead
    rw [if_neg (by simp [hnr])]

/-- A fully written session record used to instantiate the C2 theorem. -/
def patchWitnessSession : UserSession :=
  { productionId := "1", lineId := "line-1", endpointId := some "ep-1",
    sessionDescription := some { audio := some { ssrcs := some [1001] } } }

/-- A read sequence that immediately returns the written record. -/
def patchWitnessReads : Nat → Option UserSession :=
  fun _ => some patchWitnessSession

/-- Downstream calls that all succeed. -/
def patchWitnessExt : PatchExternalCalls :=
  { updateSession := .ok ()
    requireProduction := .ok ()
    requireLine := .ok { id := "line-1", name := "Control Room" }
    handleAnswerRequest := .ok () }

/-- Witness for C2 at a concrete found session: the handler replies 204. -/
theorem C2_patch_session_witness :
    patchSessionHandler "sid-3" patchWitnessReads patchWitnessExt = .noContent :=
  (C2_patch_session "sid-3" patchWitnessReads patchWitnessExt).2.1
    patchWitnessSession { audio := some { ssrcs := some [1001] } } "ep-1"
    rfl rfl rfl rfl rfl ⟨{ id := "line-1", name := "Control Room" }, rfl⟩ rfl

/-- An entry of the `getActiveUsers` result for a production; only the
fields the delete-line handler filters on. -/
structure ActiveUser where
  lineId : String
  isActive : Bool
  name : String := ""
deriving DecidableEq, Repr

/-- Replies of `DELETE /production/:productionId/line/:lineId`. -/
inductive DeleteLineResponse where
  | ok (body : String)
  | badRequest (message : String)
  | notFound (message : String)
  | serverError (message : String)
deriving DecidableEq, Repr

/-- HTTP status of a delete-line reply. -/
def DeleteLineResponse.status : DeleteLineResponse → Nat
  | .ok _ => 200
  | .badRequest _ => 400
  | .notFound _ => 404
  | .serverError _ => 500

/-- Result of the delete-line handler together with whether
`deleteProductionLine` was invoked. -/
structure DeleteLineOutcome where
  response : DeleteLineResponse
  didDelete : Bool
deriving DecidableEq, Repr

/-- The `DELETE /production/:productionId/line/:lineId` handler
(`api_productions.ts:597-647`): resolve the production (throws become 500),
look the line up (404 when missing), fetch the production's active users,
and refuse with 400 — without deleting — when an active user sits on the
line; otherwise delete the line and reply 200 `deleted`. -/
def deleteLineHandler (lineId : String)
    (requireProduction : Except String Unit)
    (lineLookup : Option ProductionLine)
    (getActiveUsers : Except String (List ActiveUser))
    (deleteLineCall : Except String Unit) : DeleteLineOutcome :=
  match requireProduction with
  | .error e =>
    ⟨.serverError ("Exception thrown when trying to get line: " ++ e), false⟩
  | .ok _ =>
  match lineLookup with
  | none => ⟨.notFound ("Line with id " ++ lineId ++ " not found"), false⟩
  | some line =>
  match getActiveUsers with
  | .error e =>
    ⟨.serverError ("Exception thrown when trying to get line: " ++ e), false⟩
  | .ok activeUsers =>
    if 0 < (activeUsers.filter
        (fun s => s.lineId == line.id && s.isActive)).length then
      ⟨.badRequest "Cannot remove a line with active participants", false⟩
    else
      match deleteLineCall with
      | .error e =>
        ⟨.serverError ("Exception thrown when trying to get line: " ++ e), true⟩
      | .ok _ => ⟨.ok "deleted", true⟩

/-- Claim C5: on an existing line, at least one active participant on the
line makes the handler refuse with 400 `Cannot remove a line with active
participants` without invoking the deletion; with no active participant
left on the line the same request deletes the line and replies 200. -/
theorem C5_delete_line (lineId : String) (line : ProductionLine)
    (users : List ActiveUser) (deleteLineCall : Except String Unit) :
    ((∃ u ∈ users, u.lineId = line.id ∧ u.isActive = true) →
      deleteLineHandler lineId (.ok ()) (some line) (.ok users) deleteLineCall =
        ⟨.badRequest "Cannot remove a line with active participants", false⟩) ∧
    ((∀ u ∈ users, u.lineId = line.id → u.isActive = false) →
      deleteLineCall = .ok () →
      deleteLineHandler lineId (.ok ()) (some line) (.ok users) deleteLineCall =
        ⟨.ok "deleted", true⟩) := by
  constructor
  · rintro ⟨u, hu, hline, hact⟩
    have hmem : u ∈ users.filter (fun s => s.lineId == line.id && s.isActive) := by
      rw [List.mem_filter]
      exact ⟨hu, by simp [hline, hact]⟩
    have hpos :
        0 < (users.filter (fun s => s.lineId == line.id && s.isActive)).length :=
      List.length_pos.mpr (fun hnil => by rw [hnil] at hmem; cases hmem)
    simp only [deleteLineHandler]
    rw [if_pos hpos]
  · intro hnone hdel
    simp only [deleteLineHandler, hdel]
    rw [if_neg]
    intro hpos
    rcases List.exists_mem_of_length_pos hpos with ⟨u, hu⟩
    rw [List.mem_filter] at hu
    have h1 : u.lineId = line.id := by
      have := hu.2
      simp at this
      exact this.1
    have h2 : u.isActive = true := by
      have := hu.2
      simp at this
      exact this.2
    have := hnone u hu.1 h1
    rw [this] at h2
    cases h2

/-- The line used to instantiate the C5 theorem. -/
def deleteWitnessLine : ProductionLine := { id := "line-1", name := "Control Room" }

/-- An active participant sitting on that line. -/
def deleteWitnessUser : ActiveUser := { lineId := "line-1", isActive := true }

/-- Witness for C5: with one active participant on the line the delete is
refused with 400 and nothing is deleted. -/
theorem C5_delete_line_witness :
    deleteLineHandler "line-1" (.ok ()) (some deleteWitnessLine)
        (.ok [deleteWitnessUser]) (.ok ()) =
      ⟨.badRequest "Cannot remove a line with active participants", false⟩ :=
  (C5_delete_line "line-1" deleteWitnessLine [deleteWitnessUser] (.ok ())).1
    ⟨deleteWitnessUser, List.mem_cons_self _ _, rfl, rfl⟩

/-- A stored session document as returned by the store's equality-selector
`getSessionsByQuery` (`db/couchdb.ts:498-507`, `db/mongodb.ts:342-351`);
`docId` is the document's `_id`. -/
structure StoredSession where
  docId : String
  productionId : String
  lineId : String
  isExpired : Bool
  name : String
  isActive : Bool
  isWhip : Bool
  endpointId : Option String := none
deriving DecidableEq, Repr

/-- The query issued by the participant endpoints: sessions of the given
production and line that are not expired, found by field equality. -/
def getSessionsByQuery (db : List StoredSession)
    (productionId lineId : String) : List StoredSession :=
  db.filter (fun s =>
    s.productionId == productionId && s.lineId == lineId && s.isExpired == false)

/-- Mapping a stored session to a reply participant in the long-poll
handler (`api_productions.ts:935-941`): whip sessions always count as
active. -/
def toParticipant (s : StoredSession) : UserResponse :=
  { sessionId := s.docId
    name := s.name
    isActive := if s.isWhip then true else s.isActive
    isWhip := s.isWhip
    endpointId := s.endpointId }

/-- The fixed long-poll timeout in milliseconds
(`api_productions.ts:910`). -/
def longPollTimeoutMs : Nat := 25000

/-- Resolution time of the long-poll wait (`api_productions.ts:912-925`),
in a discrete-time model of the two timers: the wait resolves at the first
`users:change` notification (`changeAt` ms after subscribing, `none` when
none fires) or at the timeout, whichever comes first. -/
def longPollResolveTime (changeAt : Option Nat) : Nat :=
  match changeAt with
  | some t => min t longPollTimeoutMs
  | none => longPollTimeoutMs

/-- Replies of the long-poll participants endpoint. -/
inductive LongPollResponse where
  | ok (participants : List UserResponse)
  | serverError (message : String)
deriving DecidableEq, Repr

/-- HTTP status of a long-poll reply. -/
def LongPollResponse.status : LongPollResponse → Nat
  | .ok _ => 200
  | .serverError _ => 500

/-- The long-poll handler body after the wait resolves
(`api_productions.ts:927-943`): query the store state at resolution time
(`db`; a thrown storage error becomes the 500 reply) for the line's
non-expired sessions and reply 200 with the sorted mapped participants. -/
def longPollHandler (db : Except String (List StoredSession))
    (productionId lineId : String) : LongPollResponse :=
  match db with
  | .error e =>
    .serverError
      ("Exception thrown when trying to set connection status for session: " ++ e)
  | .ok docs =>
    .ok (sortParticipants
      ((getSessionsByQuery docs productionId lineId).map toParticipant))

/-- Claim C6: the long-poll wait always resolves within the fixed 25000 ms
timeout — exactly at the timeout when no `users:change` fires, and at the
notification when one fires earlier — and at resolution the handler replies
200 with the sorted participant list computed from the store state at that
moment, every entry of which comes from a non-expired session of the
queried line. -/
theorem C6_long_poll (changeAt : Option Nat) (docs : List StoredSession)
    (productionId lineId : String) :
    (longPollResolveTime changeAt ≤ longPollTimeoutMs) ∧
    (changeAt = none → longPollResolveTime changeAt = longPollTimeoutMs) ∧
    (∀ t, changeAt = some t → t ≤ longPollTimeoutMs →
      longPollResolveTime changeAt = t) ∧
    (longPollHandler (.ok docs) productionId lineId =
      .ok (sortParticipants
        ((getSessionsByQuery docs productionId lineId).map toParticipant))) ∧
    (∀ participants, longPollHandler (.ok docs) productionId lineId =
        .ok participants →
      ∀ u ∈ participants, ∃ s ∈ docs, s.productionId = productionId ∧
        s.lineId = lineId ∧ s.isExpired = false ∧ u = toParticipant s) := by
  refine ⟨?_, ?_, ?_, rfl, ?_⟩
  · cases changeAt <;> simp [longPollResolveTime]
  · intro h
    rw [h]
    rfl
  · intro t ht hle
    rw [ht]
    simp [longPollResolveTime, Nat.min_eq_left hle]
  · intro participants hp u hu
    injection hp with hp
    rw [← hp] at hu
    have hu' :=
      (sortParticipants_perm
        ((getSessionsByQuery docs productionId lineId).map toParticipant)).mem_iff.mp hu
    rw [List.mem_map] at hu'
    obtain ⟨s, hs, hus⟩ := hu'
    rw [getSessionsByQuery, List.mem_filter] at hs
    refine ⟨s, hs.1, ?_, ?_, ?_, hus.symm⟩
    · have := hs.2
      simp at this
      exact this.1.1
    · have := hs.2
      simp at this
      exact this.1.2
    · have := hs.2
      simp at this
      exact this.2

/-- Witness for C6: with no `users:change` notification the wait resolves
exactly at the 25000 ms timeout. -/
theorem C6_long_poll_witness :
    longPollResolveTime none = longPollTimeoutMs :=
  (C6_long_poll none [] "prod-1" "line-1").2.1 rfl

/-- A session record as seen by the heartbeat path: the expiry flag and the
last-seen timestamp. -/
structure HeartbeatSession where
  isExpired : Bool
  lastSeen : Nat
deriving DecidableEq, Repr

/-- Modelled from the spec: `ProductionManager.updateUserLastSeen` is not
among the provided sources (only its callers and test doubles are).  The
spec states it returns false on an expired or nonexistent session id, and
on a live session returns true and strictly increases `lastSeen` — here it
sets `lastSeen` to the heartbeat arrival time `now`.  The function returns
the status together with the updated store. -/
def updateUserLastSeen (db : String → Option HeartbeatSession)
    (sessionId : String) (now : Nat) :
    Bool × (String → Option HeartbeatSession) :=
  match db sessionId with
  | none => (false, db)
  | some s =>
    if s.isExpired then (false, db)
    else
      (true,
        fun id => if id = sessionId then some { s with lastSeen := now } else db id)

/-- Replies of `GET /heartbeat/:sessionId`. -/
inductive HeartbeatResponse where
  | ok (body : String)
  | gone (message : String)
deriving DecidableEq, Repr

/-- HTTP status of a heartbeat reply. -/
def HeartbeatResponse.status : HeartbeatResponse → Nat
  | .ok _ => 200
  | .gone _ => 410

/-- The `GET /heartbeat/:sessionId` handler (`api_productions.ts:956-979`):
reply 200 `ok` when `updateUserLastSeen` returned true, else 410 with the
not-found message. -/
def heartbeatHandler (db : String → Option HeartbeatSession)
    (sessionId : String) (now : Nat) :
    HeartbeatResponse × (String → Option HeartbeatSession) :=
  let result := updateUserLastSeen db sessionId now
  if result.1 then (.ok "ok", result.2)
  else (.gone ("User session id \"" ++ sessionId ++ "\" not found."), result.2)

/-- Claim C7: the heartbeat handler replies 200 `ok` exactly when
`updateUserLastSeen` returns true and 410 exactly when it returns false;
`updateUserLastSeen` returns false exactly for a nonexistent or expired
session; and on a live session with a later heartbeat time it returns true
and strictly increases the stored `lastSeen`. -/
theorem C7_heartbeat (db : String → Option HeartbeatSession)
    (sessionId : String) (now : Nat) :
    ((heartbeatHandler db sessionId now).1 = .ok "ok" ↔
      (updateUserLastSeen db sessionId now).1 = true) ∧
    ((heartbeatHandler db sessionId now).1 =
        .gone ("User session id \"" ++ sessionId ++ "\" not found.") ↔
      (updateUserLastSeen db sessionId now).1 = false) ∧
    ((updateUserLastSeen db sessionId now).1 = false ↔
      (db sessionId = none ∨ ∃ s, db sessionId = some s ∧ s.isExpired = true)) ∧
    (∀ s, db sessionId = some s → s.isExpired = false → s.lastSeen < now →
      (updateUserLastSeen db sessionId now).1 = true ∧
      ∃ s', (updateUserLastSeen db sessionId now).2 sessionId = some s' ∧
        s.lastSeen < s'.lastSeen) := by
  refine ⟨?_, ?_, ?_, ?_⟩
  · unfold heartbeatHandler
    by_cases h : (updateUserLastSeen db sessionId now).1 = true
    · rw [if_pos h]
      simp [h]
    · rw [if_neg h]
      simp [h]
  · unfold heartbeatHandler
    by_cases h : (updateUserLastSeen db sessionId now).1 = true
    · rw [if_pos h]
      simp [h]
    · rw [if_neg h]
      simp
      simpa using h
  · unfold updateUserLastSeen
    rcases hdb : db sessionId with _ | s
    · simp
    · by_cases hexp : s.isExpired = true <;> simp [hexp]
  · intro s hdb hexp hlast
    unfold updateUserLastSeen
    rw [hdb]
    simp [hexp]
    exact hlast

/-- A store holding one live session. -/
def heartbeatWitnessDb : String → Option HeartbeatSession :=
  fun id =>
    if id = "sid-live" then some { isExpired := false, lastSeen := 10 } else none

/-- Witness for C7: a heartbeat for the live session succeeds (and hence
the handler replies 200 `ok`). -/
theorem C7_heartbeat_witness :
    (updateUserLastSeen heartbeatWitnessDb "sid-live" 20).1 = true :=
  ((C7_heartbeat heartbeatWitnessDb "sid-live" 20).2.2.2
    { isExpired := false, lastSeen := 10 } (by simp [heartbeatWitnessDb]) rfl
    (by norm_num)).1

end Intercom
